import Mathlib

/-!
Verification of the appregistry-server bootstrap
(`cmd/appregistry-server/main.go`).

The file shallowly embeds the two pieces of logic of that unit:

* `handleSourceFlag` — the source-specifier resolver: the legacy
  `sources` flag wins over the modern `registry` flag.
* `runCmdFunc` / `program` — the bootstrap sequence of `runCmdFunc`
  together with the top-level error handling of `main`, modelled as a
  trace of observable events plus a final outcome.

External collaborators (flag retrieval, `log.AddDefaultWriterHooks`,
`appregistry.NewLoader`, `Loader.Load`, `net.Listen`, `grpc.Server.Serve`)
are modelled as an environment of oracles supplying each call's result;
the bootstrap code under verification decides what to do with those
results, exactly following the Go control flow.
-/

/-- The two list-valued flags `handleSourceFlag` retrieves from the
command object.  `cmd.Flags().GetStringSlice` returns a value or an
error, modelled as `Except String (List String)`. -/
structure SourceFlags where
  sources : Except String (List String)
  registry : Except String (List String)
  deriving Repr

/-- Embedding of `handleSourceFlag` (main.go lines 126-147): retrieve the
legacy `sources` flag, propagating a retrieval error; if the retrieved
list is non-empty return it with `legacy = true`; otherwise retrieve the
modern `registry` flag, propagating a retrieval error, and return it with
`legacy = false`. -/
def handleSourceFlag (cmd : SourceFlags) : Except String (List String × Bool) :=
  match cmd.sources with
  | .error err => .error err
  | .ok operatorSourceCRNames =>
    if operatorSourceCRNames.length > 0 then
      .ok (operatorSourceCRNames, true)
    else
      match cmd.registry with
      | .error err => .error err
      | .ok remoteSources => .ok (remoteSources, false)

/-- Observable events of one bootstrap run, in the order the Go code can
emit them.  `...Fail` marks the corresponding step returning an error;
`termLogWrite` is a diagnostic line reaching the termination-log file;
`exitNonzero` is process termination with a non-zero status. -/
inductive Event where
  | readTermLogFlag
  | readTermLogFlagFail
  | hookInstall
  | hookInstallFail
  | readKubeconfig
  | readKubeconfigFail
  | readPort
  | readPortFail
  | readSources
  | readSourcesFail
  | readRegistry
  | readRegistryFail
  | readPackages
  | readPackagesFail
  | readDatabase
  | readDatabaseFail
  | loaderNew
  | loaderNewFail
  | loadOk
  | loadFail
  | listenBind
  | listenFail
  | serverNew
  | registerRegistry
  | registerHealth
  | reflectionRegister
  | serveCall
  | serveFail
  | termLogWrite
  | exitNonzero
  deriving DecidableEq, Repr

/-- Position of each event in the one possible program order; a trace is
sequential iff its ranks strictly increase. -/
def rank : Event → Nat
  | .readTermLogFlag => 0
  | .readTermLogFlagFail => 1
  | .hookInstall => 2
  | .hookInstallFail => 3
  | .readKubeconfig => 4
  | .readKubeconfigFail => 5
  | .readPort => 6
  | .readPortFail => 7
  | .readSources => 8
  | .readSourcesFail => 9
  | .readRegistry => 10
  | .readRegistryFail => 11
  | .readPackages => 12
  | .readPackagesFail => 13
  | .readDatabase => 14
  | .readDatabaseFail => 15
  | .loaderNew => 16
  | .loaderNewFail => 17
  | .loadOk => 18
  | .loadFail => 19
  | .listenBind => 20
  | .listenFail => 21
  | .serverNew => 22
  | .registerRegistry => 23
  | .registerHealth => 24
  | .reflectionRegister => 25
  | .serveCall => 26
  | .serveFail => 27
  | .termLogWrite => 28
  | .exitNonzero => 29

/-- A trace is sequential when the `rank`s of its events strictly
increase: each step happens at most once, in the one program order, with
no backward transition. -/
def sequentialB : List Event → Bool
  | [] => true
  | [_] => true
  | a :: b :: t => decide (rank a < rank b) && sequentialB (b :: t)

/-- `occursBefore a b t` holds when some occurrence of `a` in `t` is
strictly before some occurrence of `b`. -/
def occursBefore (a b : Event) : List Event → Bool
  | [] => false
  | x :: xs => (decide (x = a) && decide (b ∈ xs)) || occursBefore a b xs

/-- The events that are RPC-service registrations on the grpc server
(`api.RegisterRegistryServer` and `health.RegisterHealthServer`);
`reflection.Register` is introspection, not a service registration. -/
def isRegistration (e : Event) : Bool :=
  decide (e = Event.registerRegistry) || decide (e = Event.registerHealth)

/-- `handleSourceFlag` instrumented with the flag-retrieval events it
performs; the retrieved values and the result are those of
`handleSourceFlag` (see `handleSourceFlagT_snd`), with the non-empty
length test rendered as a cons pattern. -/
def handleSourceFlagT (cmd : SourceFlags) :
    List Event × Except String (List String × Bool) :=
  match cmd.sources with
  | .error err => ([.readSourcesFail], .error err)
  | .ok [] =>
    match cmd.registry with
    | .error err => ([.readSources, .readRegistryFail], .error err)
    | .ok remoteSources =>
      ([.readSources, .readRegistry], .ok (remoteSources, false))
  | .ok operatorSourceCRNames =>
    ([.readSources], .ok (operatorSourceCRNames, true))

/-- One run's external world: each collaborator call of `runCmdFunc` is
an oracle giving that call's result.  `serve` is `none` when
`grpc.Server.Serve` blocks forever (the steady state) and `some e` when
it returns a transport error.  Loader and store values are opaque to the
bootstrap, so successful construction carries `Unit`. -/
structure Env where
  terminationLogFlag : Except String String
  addWriterHooks : String → Except String Unit
  kubeconfigFlag : Except String String
  portFlag : Except String String
  sourceFlags : SourceFlags
  packagesFlag : Except String String
  databaseFlag : Except String String
  newLoader : String → Bool → Except String Unit
  load : String → List String → String → Except String Unit
  listen : String → Except String Unit
  serve : Option String

/-- How one invocation of `runCmdFunc` ends: an error returned to
`cobra` (`retErr`), an immediate `logrus.Fatalf` (`fatal`), or handing
control to `Serve` forever (`serving`). -/
inductive RunResult where
  | retErr (msg : String)
  | fatal (msg : String)
  | serving
  deriving Repr

/-- Embedding of `runCmdFunc` (main.go lines 51-112): the exact sequence
of collaborator calls with their fail-fast control flow, instrumented
with the trace of events performed. -/
def runCmdFunc (env : Env) : List Event × RunResult :=
  match env.terminationLogFlag with
  | .error e => ([.readTermLogFlagFail], .retErr e)
  | .ok terminationLogPath =>
  match env.addWriterHooks terminationLogPath with
  | .error e => ([.readTermLogFlag, .hookInstallFail], .retErr e)
  | .ok _ =>
  match env.kubeconfigFlag with
  | .error e =>
    ([.readTermLogFlag, .hookInstall, .readKubeconfigFail], .retErr e)
  | .ok kubeconfig =>
  match env.portFlag with
  | .error e =>
    ([.readTermLogFlag, .hookInstall, .readKubeconfig, .readPortFail],
     .retErr e)
  | .ok port =>
  match handleSourceFlagT env.sourceFlags with
  | (st, .error e) =>
    ([.readTermLogFlag, .hookInstall, .readKubeconfig, .readPort] ++ st,
     .retErr e)
  | (st, .ok (sources, legacy)) =>
  match env.packagesFlag with
  | .error e =>
    ([.readTermLogFlag, .hookInstall, .readKubeconfig, .readPort] ++ st
      ++ [.readPackagesFail], .retErr e)
  | .ok packages =>
  match env.databaseFlag with
  | .error e =>
    ([.readTermLogFlag, .hookInstall, .readKubeconfig, .readPort] ++ st
      ++ [.readPackages, .readDatabaseFail], .retErr e)
  | .ok dbName =>
  match env.newLoader kubeconfig legacy with
  | .error e =>
    ([.readTermLogFlag, .hookInstall, .readKubeconfig, .readPort] ++ st
      ++ [.readPackages, .readDatabase, .loaderNewFail],
     .fatal ("error initializing - " ++ e))
  | .ok _ =>
  match env.load dbName sources packages with
  | .error e =>
    ([.readTermLogFlag, .hookInstall, .readKubeconfig, .readPort] ++ st
      ++ [.readPackages, .readDatabase, .loaderNew, .loadFail],
     .fatal ("error loading manifest from remote registry - " ++ e))
  | .ok _ =>
  match env.listen (":" ++ port) with
  | .error e =>
    ([.readTermLogFlag, .hookInstall, .readKubeconfig, .readPort] ++ st
      ++ [.readPackages, .readDatabase, .loaderNew, .loadOk, .listenFail],
     .fatal ("failed to listen: " ++ e))
  | .ok _ =>
  match env.serve with
  | some e =>
    ([.readTermLogFlag, .hookInstall, .readKubeconfig, .readPort] ++ st
      ++ [.readPackages, .readDatabase, .loaderNew, .loadOk, .listenBind,
          .serverNew, .registerRegistry, .registerHealth,
          .reflectionRegister, .serveCall, .serveFail],
     .fatal ("failed to serve: " ++ e))
  | none =>
    ([.readTermLogFlag, .hookInstall, .readKubeconfig, .readPort] ++ st
      ++ [.readPackages, .readDatabase, .loaderNew, .loadOk, .listenBind,
          .serverNew, .registerRegistry, .registerHealth,
          .reflectionRegister, .serveCall],
     .serving)

/-- Final fate of the process: serving forever, or terminated with a
non-zero status after a fatal diagnostic. -/
inductive Outcome where
  | servingForever
  | fatalExit
  deriving DecidableEq, Repr

/-- Modelled from the spec: `log.AddDefaultWriterHooks` (package
`pkg/lib/log`, not part of the visible unit) installs logger hooks so
that a final fatal diagnostic is also "written with the final fatal
error before exit" to the termination-log path.  Accordingly a fatal
process exit produces a `termLogWrite` exactly when the hook
installation succeeded earlier in the run; the exit status is non-zero
either way (`logrus.Fatalf` inside `runCmdFunc`, or the error returned
to `main` triggering `logrus.Panic`). -/
def fatalTrace (t : List Event) : List Event :=
  if Event.hookInstall ∈ t then t ++ [.termLogWrite, .exitNonzero]
  else t ++ [.exitNonzero]

/-- Final accounting of one `runCmdFunc` invocation: an error returned
to `cobra` makes `main` panic (non-zero exit), a `logrus.Fatalf` exits
non-zero directly, and `serving` is the steady state. -/
def finish : List Event × RunResult → List Event × Outcome
  | (t, .retErr _) => (fatalTrace t, .fatalExit)
  | (t, .fatal _) => (fatalTrace t, .fatalExit)
  | (t, .serving) => (t, .servingForever)

/-- The whole process: `runCmdFunc` run by `rootCmd.Execute()`, with
`main`'s top-level error handling applied to its result. -/
def program (env : Env) : List Event × Outcome :=
  finish (runCmdFunc env)

/-- All (trace, outcome) pairs the process can produce, enumerated from
the finitely many control paths of `runCmdFunc`. -/
def possibleRuns : List (List Event × Outcome) :=
  [([.readTermLogFlagFail, .exitNonzero], .fatalExit),
   ([.readTermLogFlag, .hookInstallFail, .exitNonzero], .fatalExit),
   ([.readTermLogFlag, .hookInstall, .readKubeconfigFail, .termLogWrite,
     .exitNonzero], .fatalExit),
   ([.readTermLogFlag, .hookInstall, .readKubeconfig, .readPortFail,
     .termLogWrite, .exitNonzero], .fatalExit),
   ([.readTermLogFlag, .hookInstall, .readKubeconfig, .readPort,
     .readSourcesFail, .termLogWrite, .exitNonzero], .fatalExit),
   ([.readTermLogFlag, .hookInstall, .readKubeconfig, .readPort,
     .readSources, .readRegistryFail, .termLogWrite, .exitNonzero],
    .fatalExit),
   ([.readTermLogFlag, .hookInstall, .readKubeconfig, .readPort,
     .readSources, .readPackagesFail, .termLogWrite, .exitNonzero],
    .fatalExit),
   ([.readTermLogFlag, .hookInstall, .readKubeconfig, .readPort,
     .readSources, .readRegistry, .readPackagesFail, .termLogWrite,
     .exitNonzero], .fatalExit),
   ([.readTermLogFlag, .hookInstall, .readKubeconfig, .readPort,
     .readSources, .readPackages, .readDatabaseFail, .termLogWrite,
     .exitNonzero], .fatalExit),
   ([.readTermLogFlag, .hookInstall, .readKubeconfig, .readPort,
     .readSources, .readRegistry, .readPackages, .readDatabaseFail,
     .termLogWrite, .exitNonzero], .fatalExit),
   ([.readTermLogFlag, .hookInstall, .readKubeconfig, .readPort,
     .readSources, .readPackages, .readDatabase, .loaderNewFail,
     .termLogWrite, .exitNonzero], .fatalExit),
   ([.readTermLogFlag, .hookInstall, .readKubeconfig, .readPort,
     .readSources, .readRegistry, .readPackages, .readDatabase,
     .loaderNewFail, .termLogWrite, .exitNonzero], .fatalExit),
   ([.readTermLogFlag, .hookInstall, .readKubeconfig, .readPort,
     .readSources, .readPackages, .readDatabase, .loaderNew, .loadFail,
     .termLogWrite, .exitNonzero], .fatalExit),
   ([.readTermLogFlag, .hookInstall, .readKubeconfig, .readPort,
     .readSources, .readRegistry, .readPackages, .readDatabase,
     .loaderNew, .loadFail, .termLogWrite, .exitNonzero], .fatalExit),
   ([.readTermLogFlag, .hookInstall, .readKubeconfig, .readPort,
     .readSources, .readPackages, .readDatabase, .loaderNew, .loadOk,
     .listenFail, .termLogWrite, .exitNonzero], .fatalExit),
   ([.readTermLogFlag, .hookInstall, .readKubeconfig, .readPort,
     .readSources, .readRegistry, .readPackages, .readDatabase,
     .loaderNew, .loadOk, .listenFail, .termLogWrite, .exitNonzero],
    .fatalExit),
   ([.readTermLogFlag, .hookInstall, .readKubeconfig, .readPort,
     .readSources, .readPackages, .readDatabase, .loaderNew, .loadOk,
     .listenBind, .serverNew, .registerRegistry, .registerHealth,
     .reflectionRegister, .serveCall, .serveFail, .termLogWrite,
     .exitNonzero], .fatalExit),
   ([.readTermLogFlag, .hookInstall, .readKubeconfig, .readPort,
     .readSources, .readRegistry, .readPackages, .readDatabase,
     .loaderNew, .loadOk, .listenBind, .serverNew, .registerRegistry,
     .registerHealth, .reflectionRegister, .serveCall, .serveFail,
     .termLogWrite, .exitNonzero], .fatalExit),
   ([.readTermLogFlag, .hookInstall, .readKubeconfig, .readPort,
     .readSources, .readPackages, .readDatabase, .loaderNew, .loadOk,
     .listenBind, .serverNew, .registerRegistry, .registerHealth,
     .reflectionRegister, .serveCall], .servingForever),
   ([.readTermLogFlag, .hookInstall, .readKubeconfig, .readPort,
     .readSources, .readRegistry, .readPackages, .readDatabase,
     .loaderNew, .loadOk, .listenBind, .serverNew, .registerRegistry,
     .registerHealth, .reflectionRegister, .serveCall], .servingForever)]

/-- Environment of a fully successful run: legacy sources supplied, all
collaborators succeed, `Serve` blocks forever. -/
def envOk : Env :=
  ⟨.ok "/dev/termination-log", fun _ => .ok (), .ok "", .ok "50051",
   ⟨.ok ["marketplace/community-operators"], .ok []⟩, .ok "",
   .ok "bundles.db", fun _ _ => .ok (), fun _ _ _ => .ok (),
   fun _ => .ok (), none⟩

/-- Environment where every step succeeds except the load call, which
fails with a network error. -/
def envLoadFail : Env :=
  ⟨.ok "/dev/termination-log", fun _ => .ok (), .ok "", .ok "50051",
   ⟨.ok ["marketplace/community-operators"], .ok []⟩, .ok "",
   .ok "bundles.db", fun _ _ => .ok (),
   fun _ _ _ => .error "network unreachable", fun _ => .ok (), none⟩

/-- Environment where installing the termination-log writer hooks fails
(for example, an unwritable termination-log path); every other
collaborator would succeed. -/
def envHookFail : Env :=
  ⟨.ok "/dev/termination-log",
   fun _ => .error "open /dev/termination-log: permission denied",
   .ok "", .ok "50051",
   ⟨.ok ["marketplace/community-operators"], .ok []⟩, .ok "",
   .ok "bundles.db", fun _ _ => .ok (), fun _ _ _ => .ok (),
   fun _ => .ok (), none⟩

theorem program_mem_possibleRuns (env : Env) :
    program env ∈ possibleRuns := by
  obtain ⟨tl, hooks, kube, port, ⟨src, reg⟩, pkgs, db, nl, ld, lis, srv⟩ := env
  unfold program runCmdFunc handleSourceFlagT
  rcases src with es | (_ | ⟨s0, L⟩) <;> rcases reg with er | M <;>
    dsimp only <;>
    repeat' split
  all_goals simp only [finish, fatalTrace]
  all_goals decide

/-- The instrumented resolver returns exactly the result of
`handleSourceFlag`: instrumentation changes the trace, never the value. -/
theorem handleSourceFlagT_snd (cmd : SourceFlags) :
    (handleSourceFlagT cmd).2 = handleSourceFlag cmd := by
  obtain ⟨src, reg⟩ := cmd
  rcases src with e | (_ | ⟨a, L⟩) <;> rcases reg with e2 | M <;>
    simp [handleSourceFlag, handleSourceFlagT]

/-- Claim C1: for every non-empty legacy specifier list `L` and every
modern specifier list `M` (including non-empty `M`), the source resolver
returns exactly `(L, legacyMode = true)`: the legacy list is returned
verbatim and the modern list is ignored. -/
theorem C1_legacy_wins (L M : List String) (h : L ≠ []) :
    handleSourceFlag ⟨.ok L, .ok M⟩ = .ok (L, true) := by
  cases L with
  | nil => exact absurd rfl h
  | cons a L => simp [handleSourceFlag]

/-- Witness for C1 at the spec's concrete scenario 1: legacy
`ns/a,ns/b` beats a supplied modern specifier. -/
theorem C1_legacy_wins_witness :
    (["ns/a", "ns/b"] : List String) ≠ [] ∧
      handleSourceFlag ⟨.ok ["ns/a", "ns/b"], .ok ["url|q|sec"]⟩ =
        .ok (["ns/a", "ns/b"], true) :=
  ⟨by decide, C1_legacy_wins ["ns/a", "ns/b"] ["url|q|sec"] (by decide)⟩

/-- Claim C2: for an empty legacy specifier list and every modern list
`M`, the resolver returns exactly `(M, legacyMode = false)`; with
`M = []` this specializes to `([], false)`. -/
theorem C2_modern_when_no_legacy (M : List String) :
    handleSourceFlag ⟨.ok [], .ok M⟩ = .ok (M, false) := by
  simp [handleSourceFlag]

/-- Claim C4, counterexample: the claim says flag-retrieval errors are
surfaced separately before the resolver runs and never by the resolver
itself, but `handleSourceFlag` itself retrieves the flags and returns a
retrieval error to its caller: on a failing `sources` retrieval the
resolver's own result is that error, not a success. -/
theorem C4_resolver_failure_cex :
    handleSourceFlag
        ⟨.error "flag accessed but not defined: sources", .ok []⟩ =
      .error "flag accessed but not defined: sources" := rfl

/-- Claim C4, amended: over successfully retrieved flag values the
resolver is total and pure — it always returns a success, decided only
by the two lists; but when a flag retrieval fails, the resolver itself
surfaces that error to its caller (it is not surfaced before the
resolver runs). -/
theorem C4_resolver_total_amended (L M : List String) (e : String)
    (r : Except String (List String)) :
    handleSourceFlag ⟨.ok L, .ok M⟩ =
        .ok (if 0 < L.length then (L, true) else (M, false)) ∧
      handleSourceFlag ⟨.error e, r⟩ = .error e := by
  constructor
  · cases L <;> simp [handleSourceFlag]
  · rfl

/-- Claim C8: the resolver is deterministic and side-effect free — its
output depends only on the two retrieved flag values, so two calls with
identical legacy and modern values yield identical results. -/
theorem C8_resolver_deterministic (f g : SourceFlags)
    (hs : f.sources = g.sources) (hr : f.registry = g.registry) :
    handleSourceFlag f = handleSourceFlag g := by
  obtain ⟨fs, fr⟩ := f
  obtain ⟨gs, gr⟩ := g
  dsimp only at hs hr
  rw [hs, hr]

/-- Witness for C8: two calls on identical flag values agree. -/
theorem C8_resolver_deterministic_witness :
    handleSourceFlag ⟨.ok ["ns/a"], .ok ["url|q|sec"]⟩ =
      handleSourceFlag ⟨.ok ["ns/a"], .ok ["url|q|sec"]⟩ :=
  C8_resolver_deterministic ⟨.ok ["ns/a"], .ok ["url|q|sec"]⟩
    ⟨.ok ["ns/a"], .ok ["url|q|sec"]⟩ rfl rfl

/-- Claim C9: when the legacy `sources` value is a non-empty list, the
`registry` flag is never read: the result is `(L, true)` whatever the
`registry` oracle would answer — even a `registry` retrieval error is
not surfaced — and the instrumented resolver performs only the
`sources` read. -/
theorem C9_registry_not_read (L : List String)
    (r r' : Except String (List String)) (e : String) (h : L ≠ []) :
    handleSourceFlag ⟨.ok L, r⟩ = .ok (L, true) ∧
      handleSourceFlag ⟨.ok L, r⟩ = handleSourceFlag ⟨.ok L, r'⟩ ∧
      handleSourceFlag ⟨.ok L, .error e⟩ = .ok (L, true) ∧
      (handleSourceFlagT ⟨.ok L, r⟩).1 = [Event.readSources] := by
  cases L with
  | nil => exact absurd rfl h
  | cons a L =>
    refine ⟨?_, ?_, ?_, ?_⟩ <;> simp [handleSourceFlag, handleSourceFlagT]

/-- Witness for C9: with legacy `["ns/a"]`, a failing `registry`
retrieval is invisible. -/
theorem C9_registry_not_read_witness :
    handleSourceFlag ⟨.ok ["ns/a"], .error "boom"⟩ = .ok (["ns/a"], true) ∧
      handleSourceFlag ⟨.ok ["ns/a"], .error "boom"⟩ =
        handleSourceFlag ⟨.ok ["ns/a"], .ok ["url|q|sec"]⟩ ∧
      handleSourceFlag ⟨.ok ["ns/a"], .error "err"⟩ = .ok (["ns/a"], true) ∧
      (handleSourceFlagT ⟨.ok ["ns/a"], .error "boom"⟩).1 =
        [Event.readSources] :=
  C9_registry_not_read ["ns/a"] (.error "boom") (.ok ["url|q|sec"]) "err"
    (by decide)

/-- Claim C10: the resolver's successful output pair is always
consistent — `legacyMode = true` forces the specifiers to be exactly the
(non-empty) legacy list, and `legacyMode = false` forces them to be
exactly the modern list (with the legacy list having been empty); the
state `(legacyMode = true, modern list)` is unreachable. -/
theorem C10_output_consistent (f : SourceFlags) (s : List String) (b : Bool)
    (h : handleSourceFlag f = .ok (s, b)) :
    (b = true → f.sources = .ok s ∧ s ≠ []) ∧
      (b = false → f.sources = .ok [] ∧ f.registry = .ok s) := by
  obtain ⟨src, reg⟩ := f
  rcases src with e | (_ | ⟨a, L⟩)
  · simp [handleSourceFlag] at h
  · rcases reg with e2 | M
    · simp [handleSourceFlag] at h
    · simp [handleSourceFlag] at h
      obtain ⟨rfl, rfl⟩ := h
      simp
  · simp [handleSourceFlag] at h
    obtain ⟨rfl, rfl⟩ := h
    simp

/-- Witness for C10 at a concrete resolver run in legacy mode. -/
theorem C10_output_consistent_witness :
    ((true : Bool) = true →
        (⟨.ok ["ns/a"], .ok []⟩ : SourceFlags).sources = .ok ["ns/a"] ∧
          (["ns/a"] : List String) ≠ []) ∧
      ((true : Bool) = false →
        (⟨.ok ["ns/a"], .ok []⟩ : SourceFlags).sources = .ok [] ∧
          (⟨.ok ["ns/a"], .ok []⟩ : SourceFlags).registry = .ok ["ns/a"]) :=
  C10_output_consistent ⟨.ok ["ns/a"], .ok []⟩ ["ns/a"] true rfl

/-- Claim C3: the listener is bound, and the registry and health
services registered, only after the load call returned successfully (a
`loadOk` strictly precedes them in every trace); and whenever loader
construction or the load call fails, the process ends in a fatal exit
with no listener ever opened and no service registered. -/
theorem C3_listen_after_load (env : Env) :
    ((Event.loaderNewFail ∈ (program env).1 ∨
          Event.loadFail ∈ (program env).1) →
        Event.listenBind ∉ (program env).1 ∧
          Event.registerRegistry ∉ (program env).1 ∧
          Event.registerHealth ∉ (program env).1 ∧
          (program env).2 = Outcome.fatalExit) ∧
      (Event.listenBind ∈ (program env).1 →
        occursBefore Event.loadOk Event.listenBind (program env).1 = true) ∧
      (Event.registerRegistry ∈ (program env).1 →
        occursBefore Event.loadOk Event.registerRegistry (program env).1 =
          true) ∧
      (Event.registerHealth ∈ (program env).1 →
        occursBefore Event.loadOk Event.registerHealth (program env).1 =
          true) := by
  have hmem := program_mem_possibleRuns env
  revert hmem
  generalize program env = p
  revert p
  decide

/-- Witness for C3: with a failing load call no listener is opened and
the exit is fatal; in the fully successful run the bind follows a
successful load. -/
theorem C3_listen_after_load_witness :
    Event.loadFail ∈ (program envLoadFail).1 ∧
      Event.listenBind ∉ (program envLoadFail).1 ∧
      Event.registerRegistry ∉ (program envLoadFail).1 ∧
      Event.registerHealth ∉ (program envLoadFail).1 ∧
      (program envLoadFail).2 = Outcome.fatalExit ∧
      occursBefore Event.loadOk Event.listenBind (program envOk).1 = true :=
  ⟨by decide,
   ((C3_listen_after_load envLoadFail).1 (Or.inr (by decide))).1,
   ((C3_listen_after_load envLoadFail).1 (Or.inr (by decide))).2.1,
   ((C3_listen_after_load envLoadFail).1 (Or.inr (by decide))).2.2.1,
   ((C3_listen_after_load envLoadFail).1 (Or.inr (by decide))).2.2.2,
   (C3_listen_after_load envOk).2.1 (by decide)⟩

/-- Claim C5, counterexample: a failure at the stage that installs the
termination-log writer hooks (for example an unwritable termination-log
path) terminates the process with a non-zero status but writes no
diagnostic line to the termination-log path — refuting "for every
failure at any bootstrap stage, the process writes a diagnostic line to
the configured termination-log path". -/
theorem C5_termlog_cex :
    (program envHookFail).2 = Outcome.fatalExit ∧
      Event.exitNonzero ∈ (program envHookFail).1 ∧
      Event.termLogWrite ∉ (program envHookFail).1 := by
  decide

/-- Claim C5, amended: every bootstrap failure terminates the process
with a non-zero status, and every failure occurring after the
termination-log writer hook was successfully installed also writes a
diagnostic line to the termination-log path; failures at or before hook
installation (reading the termination-log flag, or installing the hook)
exit non-zero without a termination-log write. -/
theorem C5_termlog_amended (env : Env) :
    ((program env).2 = Outcome.fatalExit →
        Event.exitNonzero ∈ (program env).1) ∧
      ((program env).2 = Outcome.fatalExit →
        Event.hookInstall ∈ (program env).1 →
        Event.termLogWrite ∈ (program env).1) ∧
      (Event.hookInstall ∉ (program env).1 →
        Event.termLogWrite ∉ (program env).1) := by
  have hmem := program_mem_possibleRuns env
  revert hmem
  generalize program env = p
  revert p
  decide

/-- Witness for C5 (amended): a failing load call after hook
installation exits non-zero and writes the termination log; a failing
hook installation writes none. -/
theorem C5_termlog_amended_witness :
    Event.exitNonzero ∈ (program envLoadFail).1 ∧
      Event.termLogWrite ∈ (program envLoadFail).1 ∧
      Event.termLogWrite ∉ (program envHookFail).1 :=
  ⟨(C5_termlog_amended envLoadFail).1 (by decide),
   (C5_termlog_amended envLoadFail).2.1 (by decide) (by decide),
   (C5_termlog_amended envHookFail).2.2 (by decide)⟩

/-- Claim C6, counterexample: in the fully successful run the `packages`
configuration flag is read only after the source resolver has run
(`readSources` strictly precedes `readPackages` and never conversely),
refuting "the ConfigRead stage (reading all configuration flag values)
completes before the SourcesResolved stage begins". -/
theorem C6_configread_cex :
    Event.readSources ∈ (program envOk).1 ∧
      Event.readPackages ∈ (program envOk).1 ∧
      occursBefore Event.readSources Event.readPackages (program envOk).1 =
        true ∧
      occursBefore Event.readPackages Event.readSources (program envOk).1 =
        false := by
  decide

/-- Claim C6, amended: the bootstrap is strictly sequential with no
backward transitions — every trace is strictly increasing in the fixed
program order given by `rank` — but configuration reading is interleaved
with resolution: the termination-log, kubeconfig and port flags are read
before the source resolver runs, while the packages and database flags
are read only after it (the `rank` order places `readPackages` and
`readDatabase` after `readSources` and `readRegistry`). -/
theorem C6_sequential_amended (env : Env) :
    sequentialB (program env).1 = true := by
  have hmem := program_mem_possibleRuns env
  revert hmem
  generalize program env = p
  revert p
  decide

/-- Claim C7: on the single server instance, the registry query service
is registered first and the health service second — in every trace that
constructs the server, the service registrations are exactly
`[registerRegistry, registerHealth]` in that order — followed by
enabling reflection; runs that never construct the server register no
service at all. -/
theorem C7_service_registration (env : Env) :
    (Event.serverNew ∈ (program env).1 →
        (program env).1.filter isRegistration =
            [Event.registerRegistry, Event.registerHealth] ∧
          occursBefore Event.serverNew Event.registerRegistry
              (program env).1 = true ∧
          occursBefore Event.registerHealth Event.reflectionRegister
              (program env).1 = true) ∧
      (Event.serverNew ∉ (program env).1 →
        (program env).1.filter isRegistration = []) := by
  have hmem := program_mem_possibleRuns env
  revert hmem
  generalize program env = p
  revert p
  decide

/-- Witness for C7: the successful run registers exactly the registry
then the health service and then enables reflection; a run failing
before server construction registers none. -/
theorem C7_service_registration_witness :
    (program envOk).1.filter isRegistration =
        [Event.registerRegistry, Event.registerHealth] ∧
      occursBefore Event.serverNew Event.registerRegistry
          (program envOk).1 = true ∧
      occursBefore Event.registerHealth Event.reflectionRegister
          (program envOk).1 = true ∧
      (program envHookFail).1.filter isRegistration = [] :=
  ⟨((C7_service_registration envOk).1 (by decide)).1,
   ((C7_service_registration envOk).1 (by decide)).2.1,
   ((C7_service_registration envOk).1 (by decide)).2.2,
   (C7_service_registration envHookFail).2 (by decide)⟩
